import Mathlib

/-!
Shallow embedding of `strawberry/experimental/pydantic` (files
`object_type.py` and `exceptions.py`) and the behaviour it relies on.

Python runtime types are modelled by the inductive `PyType`; pydantic model
classes by `PydModel`; exceptions by `PyErr` carried in `Except`.  Functions
keep the names of the Python functions they embed.  Code of the repository
that lives outside the given sources (the conversion module, `fields.py`,
`utils.py`) is modelled from the spec; each such definition carries a doc
comment starting with `Modelled from the spec:`.
-/

namespace StrawberryPydantic

/-- Reference to a pydantic `BaseModel` subclass as it appears inside a type
expression.  `strawberryType` and `strawberryInputType` record the presence
and value of the registration attributes `_strawberry_type` and
`_strawberry_input_type` (hasattr / getattr semantics). -/
structure ModelRef where
  name : String
  strawberryType : Option String
  strawberryInputType : Option String
deriving Repr

/-- Python type expressions, as far as `replace_pydantic_types` inspects them:
`basic` covers plain types without `__args__`; `unsupported` marks a type the
basic-type mapping rejects; `generic` is a parametrised type carrying
`__args__`; `literal` is `typing.Literal` (its `__args__` are values, not
types); `pyModel` is a pydantic `BaseModel` subclass; `strawberryCls` is a
generated strawberry class (registered counterpart). -/
inductive PyType where
  | basic : String → PyType
  | unsupported : String → PyType
  | generic : String → List PyType → PyType
  | literal : List String → PyType
  | pyModel : ModelRef → PyType
  | strawberryCls : String → PyType
deriving Repr

/-- Exceptions raised by the adapter layer (from `exceptions.py`), plus the
Python built-in errors the code can hit (`KeyError`) and pydantic's
validation error for a missing required field. -/
inductive PyErr where
  | missingFieldsList : String → PyErr
  | unsupportedType : String → PyErr
  | unregisteredType : String → PyErr
  | keyError : String → PyErr
  | validationError : String → PyErr
deriving Repr

mutual

/-- Embeds `replace_pydantic_types` (object_type.py lines 49-78).  A
`Literal` returns early; a type with `__args__` is rebuilt (`copy_with`)
with each argument recursively substituted; a pydantic model is replaced by
its registered strawberry type for the requested direction, or
`UnregisteredTypeException` is raised; anything else is returned unchanged.
(The source's dead branch wrapping a `TypeDefinition` result of `copy_with`
is noted there as having no test coverage and is not modelled.) -/
def replace_pydantic_types (is_input : Bool) : PyType → Except PyErr PyType
  | PyType.literal args => Except.ok (PyType.literal args)
  | PyType.generic origin args =>
      match replaceArgs is_input args with
      | Except.ok newArgs => Except.ok (PyType.generic origin newArgs)
      | Except.error e => Except.error e
  | PyType.pyModel ref =>
      if is_input then
        match ref.strawberryInputType with
        | some s => Except.ok (PyType.strawberryCls s)
        | none => Except.error (PyErr.unregisteredType ref.name)
      else
        match ref.strawberryType with
        | some s => Except.ok (PyType.strawberryCls s)
        | none => Except.error (PyErr.unregisteredType ref.name)
  | PyType.basic s => Except.ok (PyType.basic s)
  | PyType.unsupported s => Except.ok (PyType.unsupported s)
  | PyType.strawberryCls s => Except.ok (PyType.strawberryCls s)

/-- Left-to-right substitution of a generic type's `__args__`, stopping at
the first raised exception (Python tuple-comprehension order). -/
def replaceArgs (is_input : Bool) : List PyType → Except PyErr (List PyType)
  | [] => Except.ok []
  | t :: rest =>
      match replace_pydantic_types is_input t with
      | Except.error e => Except.error e
      | Except.ok t2 =>
          match replaceArgs is_input rest with
          | Except.error e => Except.error e
          | Except.ok r2 => Except.ok (t2 :: r2)

end

/-- Modelled from the spec: `get_basic_type` lives in
`strawberry/experimental/pydantic/fields.py`, which is not among the given
sources.  The spec describes it as the type-mapping step where "an
unsupported field type encountered during type mapping" is surfaced as a
raised exception; supported types map through to their schema-equivalent
basic type. -/
def get_basic_type : PyType → Except PyErr PyType
  | PyType.unsupported s => Except.error (PyErr.unsupportedType s)
  | t => Except.ok t

/-- Applying `Optional` to a Python type: `Optional[X]` collapses when `X`
is already `Optional`, because `Optional[X]` is `Union[X, None]` and union
arguments flatten and deduplicate. -/
def mkOptional : PyType → PyType
  | PyType.generic "Optional" args => PyType.generic "Optional" args
  | t => PyType.generic "Optional" [t]

/-- Runtime values, as far as the conversion routines inspect them: scalars,
pydantic model instances (model name with named field values) and strawberry
class instances (class name with named field values). -/
inductive Value where
  | prim : Nat → Value
  | pyInst : String → List (String × Value) → Value
  | stInst : String → List (String × Value) → Value
deriving Repr

/-- A pydantic `ModelField` descriptor: name, `outer_type_`, required flag,
alias information, description, and the default used when the field is
omitted at construction. -/
structure ModelField where
  name : String
  outer_type : PyType
  required : Bool
  alias_ : String
  has_alias : Bool
  description : Option String
  default : Value
deriving Repr

/-- Embeds `get_type_for_field` (object_type.py lines 81-89): basic-type
mapping, then pydantic-type substitution, then an `Optional` wrapper when
the field is not required. -/
def get_type_for_field (field : ModelField) (is_input : Bool) : Except PyErr PyType :=
  match get_basic_type field.outer_type with
  | Except.error e => Except.error e
  | Except.ok t1 =>
      match replace_pydantic_types is_input t1 with
      | Except.error e => Except.error e
      | Except.ok t2 =>
          Except.ok (if field.required then t2 else mkOptional t2)

/-- A strawberry field descriptor, as consumed by
`_build_dataclass_creation_fields`: the constructor-relevant data of
`StrawberryField` (`type_ann` stands for the Python attribute holding the
field's type, and `has_resolver` for `base_resolver is not None`). -/
structure StrawberryField where
  python_name : String
  graphql_name : Option String
  type_ann : PyType
  description : Option String
  has_resolver : Bool
deriving Repr

/-- The intermediate record `DataclassCreationFields` pairing a name, a
resolved type (`type_ann`) and a strawberry field descriptor. -/
structure DataclassCreationFields where
  name : String
  type_ann : PyType
  field : StrawberryField
deriving Repr

/-- Dictionary lookup (`d[k]` / `d.get(k)`) in a name-keyed association
list. -/
def lookupField (fs : List (String × StrawberryField)) (n : String) : Option StrawberryField :=
  match fs.find? (fun p => p.1 == n) with
  | some p => some p.2
  | none => none

/-- The strawberry field built by `_build_dataclass_creation_fields` when the
user supplied no resolver (object_type.py lines 112-120): python name from
the model field, graphql name from the alias when one is set, the resolved
type, and the pydantic description.  The default is always left unset in the
source (a default factory is used instead); defaults are not modelled. -/
def builtStrawberryField (field : ModelField) (t : PyType) : StrawberryField :=
  { python_name := field.name
    graphql_name := if field.has_alias then some field.alias_ else none
    type_ann := t
    description := field.description
    has_resolver := false }

/-- Embeds `_build_dataclass_creation_fields` (object_type.py lines 92-126):
the resolved type comes from `get_type_for_field` when the field is in the
auto set, and from the user's existing field otherwise (a missing existing
field there is Python's `KeyError`); the strawberry field is the user's own
when it carries a resolver, and a freshly built one otherwise. -/
def _build_dataclass_creation_fields (field : ModelField) (is_input : Bool)
    (existing_fields : List (String × StrawberryField)) (auto_fields_set : List String) :
    Except PyErr DataclassCreationFields :=
  match (if auto_fields_set.contains field.name then
           get_type_for_field field is_input
         else
           match lookupField existing_fields field.name with
           | some sf => Except.ok sf.type_ann
           | none => Except.error (PyErr.keyError field.name)) with
  | Except.error e => Except.error e
  | Except.ok t =>
      let sf :=
        match lookupField existing_fields field.name with
        | some ef => if ef.has_resolver then ef else builtStrawberryField field t
        | none => builtStrawberryField field t
      Except.ok { name := field.name, type_ann := t, field := sf }

/-- A class-body member annotation: either the `strawberry.auto` marker or an
ordinary type. -/
inductive Annot where
  | auto : Annot
  | typed : PyType → Annot
deriving Repr

/-- Tests whether a member annotation is the `strawberry.auto` marker
(`typ == strawberry.auto` in the source). -/
def Annot.isAuto : Annot → Bool
  | Annot.auto => true
  | Annot.typed _ => false

/-- The type an annotation contributes when read back as a field type;
only consulted for non-auto members. -/
def Annot.toType : Annot → PyType
  | Annot.auto => PyType.basic "auto"
  | Annot.typed t => t

/-- One annotated member of the decorated class body: its name, its
annotation, and whether the user attached a resolver to it. -/
structure ClsField where
  name : String
  annot : Annot
  has_resolver : Bool
deriving Repr

/-- The class being decorated: its name, its annotated members
(`cls.__annotations__` in declaration order), and its `strawberry.Private`
members (which `_get_fields` skips; they are appended separately in the
source). -/
structure ClsDecl where
  name : String
  clsFields : List ClsField
  privateFields : List (String × PyType)
deriving Repr

/-- A pydantic model class: its name, its `__fields__` in declaration order,
the two registration attributes the decorator may set, and the rest of its
attribute dictionary (untouched by the decorator, kept to state frame
properties). -/
structure PydModel where
  name : String
  model_fields : List ModelField
  strawberry_type : Option String
  strawberry_input_type : Option String
  attrs : List (String × String)
deriving Repr

/-- Names of the pydantic model's fields (`model.__fields__.keys()`). -/
def modelFieldNames (model : PydModel) : List String :=
  model.model_fields.map (fun f => f.name)

/-- The explicit `fields` argument as a set: `set(fields) if fields else
set([])` (both `None` and an empty list give the empty set). -/
def originalFieldsSet (fields : Option (List String)) : List String :=
  match fields with
  | some l => l
  | none => []

/-- Embeds the `fields_set` union of object_type.py lines 169-171: the
explicit list united with the annotated member names that match a pydantic
model field. -/
def computeFieldsSet (original : List String) (cfs : List ClsField)
    (mnames : List String) : List String :=
  original ++ (cfs.filter (fun cf => mnames.contains cf.name)).map (fun cf => cf.name)

/-- Embeds the `auto_fields_set` union of object_type.py lines 174-176: the
explicit list united with the member names annotated `strawberry.auto`. -/
def computeAutoFieldsSet (original : List String) (cfs : List ClsField) : List String :=
  original ++ (cfs.filter (fun cf => cf.annot.isAuto)).map (fun cf => cf.name)

/-- The `fields_set` actually used by `wrap`, after the `all_fields`
override (object_type.py lines 178-186). -/
def wrapFieldsSet (model : PydModel) (fields : Option (List String))
    (all_fields : Bool) (cls : ClsDecl) : List String :=
  if all_fields then modelFieldNames model
  else computeFieldsSet (originalFieldsSet fields) cls.clsFields (modelFieldNames model)

/-- The `auto_fields_set` actually used by `wrap`, after the `all_fields`
override. -/
def wrapAutoFieldsSet (model : PydModel) (fields : Option (List String))
    (all_fields : Bool) (cls : ClsDecl) : List String :=
  if all_fields then modelFieldNames model
  else computeAutoFieldsSet (originalFieldsSet fields) cls.clsFields

/-- The strawberry field `_get_fields` yields for an annotated member of the
wrapped dataclass (dataclass field generation itself is an external
collaborator; only the data `wrap` reads back is modelled). -/
def clsStrawberryField (cf : ClsField) : StrawberryField :=
  { python_name := cf.name
    graphql_name := none
    type_ann := cf.annot.toType
    description := none
    has_resolver := cf.has_resolver }

/-- The `extra_fields_dict` of object_type.py line 200: the wrapped class's
own strawberry fields keyed by name. -/
def extraFieldsDict (cls : ClsDecl) : List (String × StrawberryField) :=
  cls.clsFields.map (fun cf => (cf.name, clsStrawberryField cf))

/-- The list comprehension of object_type.py lines 202-208: build a creation
record for every pydantic model field whose name is in `fields_set`, in
model order, raising the first error encountered. -/
def buildModelFields (mfs : List ModelField) (is_input : Bool)
    (existing : List (String × StrawberryField))
    (fields_set auto_fields_set : List String) :
    Except PyErr (List DataclassCreationFields) :=
  match mfs with
  | [] => Except.ok []
  | f :: rest =>
      if fields_set.contains f.name then
        match _build_dataclass_creation_fields f is_input existing auto_fields_set with
        | Except.error e => Except.error e
        | Except.ok d =>
            match buildModelFields rest is_input existing fields_set auto_fields_set with
            | Except.error e => Except.error e
            | Except.ok ds => Except.ok (d :: ds)
      else buildModelFields rest is_input existing fields_set auto_fields_set

/-- The strawberry field of a `strawberry.Private` member. -/
def privateStrawberryField (p : String × PyType) : StrawberryField :=
  { python_name := p.1
    graphql_name := none
    type_ann := p.2
    description := none
    has_resolver := false }

/-- The extension of object_type.py lines 210-220: the class's own extra
fields and private fields whose names are not in `fields_set`, appended as
creation records with their own types. -/
def extraCreationFields (cls : ClsDecl) (fields_set : List String) :
    List DataclassCreationFields :=
  ((extraFieldsDict cls).filter (fun p => !(fields_set.contains p.1))).map
      (fun p => { name := p.1, type_ann := p.2.type_ann, field := p.2 })
    ++ (cls.privateFields.filter (fun p => !(fields_set.contains p.1))).map
      (fun p => { name := p.1, type_ann := p.2, field := privateStrawberryField p })

/-- The generated schema class: its name, its dataclass creation fields, the
`_pydantic_type` back-pointer, and the direction it was built for. -/
structure GeneratedCls where
  name : String
  creationFields : List DataclassCreationFields
  pydantic_type : String
  is_input : Bool
deriving Repr

/-- The registration assignment of object_type.py lines 247-250: set
`_strawberry_input_type` when building an input type, `_strawberry_type`
otherwise. -/
def registerGenerated (model : PydModel) (is_input : Bool) (clsName : String) :
    PydModel :=
  if is_input then { model with strawberry_input_type := some clsName }
  else { model with strawberry_type := some clsName }

/-- Embeds the decorator body `wrap` (object_type.py lines 156-272) as a
state-passing function on the pydantic model class: the returned pair is
(raised exception or generated class, the model class afterwards).
Deprecation and `all_fields` warnings are side effects on the warning
system, not on the model, and are not modelled; `name`, `is_interface`,
`description` and `directives` only feed the external `_process_type` and
are omitted.  `ensure_all_auto_fields_in_pydantic` (utils.py, not among the
given sources) is modelled from the spec as a no-op check: the spec lists
exactly three surfaced error conditions, none of which corresponds to it.
`sort_creation_fields` (also utils.py) reorders fields so that fields with
missing defaults go first; defaults are unmodelled, so the order is kept. -/
def wrap (model : PydModel) (fields : Option (List String)) (is_input : Bool)
    (all_fields : Bool) (cls : ClsDecl) :
    Except PyErr GeneratedCls × PydModel :=
  if (wrapFieldsSet model fields all_fields cls).isEmpty then
    (Except.error (PyErr.missingFieldsList cls.name), model)
  else
    match buildModelFields model.model_fields is_input (extraFieldsDict cls)
        (wrapFieldsSet model fields all_fields cls)
        (wrapAutoFieldsSet model fields all_fields cls) with
    | Except.error e => (Except.error e, model)
    | Except.ok built =>
        (Except.ok
          { name := cls.name
            creationFields :=
              built ++ extraCreationFields cls (wrapFieldsSet model fields all_fields cls)
            pydantic_type := model.name
            is_input := is_input },
         registerGenerated model is_input cls.name)

/-- A Python object, reduced to what `isinstance` inspects: the classes in
its type's method-resolution order. -/
structure PyObj where
  mro : List String
deriving Repr

/-- Python `isinstance(obj, c)` for a single class. -/
def isinstance (obj : PyObj) (c : String) : Bool :=
  obj.mro.contains c

/-- Python `isinstance(obj, (c1, ..., cn))` for a tuple of classes: true when the
object is an instance of any of them. -/
def isinstanceTuple (obj : PyObj) (cs : List String) : Bool :=
  cs.any (fun c => isinstance obj c)

/-- Embeds the `is_type_of` classmethod installed on the generated class
(object_type.py lines 227-229): `isinstance(obj, (cls, model))`. -/
def is_type_of (cls model : String) (obj : PyObj) : Bool :=
  isinstanceTuple obj [cls, model]

/-- Registration environment for conversions: one entry per decorated
pydantic model, recording its generated class's name, the generated class's
dataclass field names, and the model's own field descriptors.  It plays the
role of the `_strawberry_type` / `_pydantic_type` links at conversion
time. -/
structure EnvEntry where
  modelName : String
  clsName : String
  clsFieldNames : List String
  modelFields : List ModelField
deriving Repr

/-- A conversion environment is a list of registrations. -/
abbrev Env := List EnvEntry

/-- Find the registration of a pydantic model by model name. -/
def envLookupModel (env : Env) (m : String) : Option EnvEntry :=
  List.find? (fun e => e.modelName == m) env

/-- Find the registration of a generated class by class name. -/
def envLookupCls (env : Env) (c : String) : Option EnvEntry :=
  List.find? (fun e => e.clsName == c) env

/-- Dictionary lookup in a name-keyed value list. -/
def lookupVal (vs : List (String × Value)) (n : String) : Option Value :=
  match vs.find? (fun p => p.1 == n) with
  | some p => some p.2
  | none => none

mutual

/-- Modelled from the spec: `convert_pydantic_model_to_strawberry_class`
(conversion.py, not among the given sources) is "a straightforward
field-by-field copy (with recursive descent into nested model-to-schema-object
conversions)": a registered pydantic model instance becomes an instance of
its generated class holding, for each of the generated class's dataclass
fields, the recursively converted value the model instance stores under that
name; scalars and already-converted values pass through. -/
def convP2S (env : Env) : Value → Value
  | Value.prim n => Value.prim n
  | Value.stInst c vs => Value.stInst c vs
  | Value.pyInst m vs =>
      match envLookupModel env m with
      | some e => Value.stInst e.clsName (convP2SFields env e.clsFieldNames vs)
      | none => Value.pyInst m vs

/-- Field-by-field copy step of the model-to-schema direction: keep the
stored values whose names are fields of the generated class, each converted
recursively. -/
def convP2SFields (env : Env) (fnames : List String) :
    List (String × Value) → List (String × Value)
  | [] => []
  | (n, v) :: rest =>
      if fnames.contains n then
        (n, convP2S env v) :: convP2SFields env fnames rest
      else convP2SFields env fnames rest

end

/-- Modelled from the spec: constructing a validation-model instance
(`model(**kwargs)`), per the glossary a class "describing field names,
types, and defaults": each declared field takes the keyword value when one
is supplied; a missing required field raises a validation error; a missing
optional field takes its default; keywords not naming a field are
ignored. -/
def constructVals (mfs : List ModelField) (kwargs : List (String × Value)) :
    Except PyErr (List (String × Value)) :=
  match mfs with
  | [] => Except.ok []
  | f :: rest =>
      match lookupVal kwargs f.name with
      | some v =>
          match constructVals rest kwargs with
          | Except.error e => Except.error e
          | Except.ok r => Except.ok ((f.name, v) :: r)
      | none =>
          if f.required then Except.error (PyErr.validationError f.name)
          else
            match constructVals rest kwargs with
            | Except.error e => Except.error e
            | Except.ok r => Except.ok ((f.name, f.default) :: r)

/-- Modelled from the spec: the validation-model constructor call
`model(**kwargs)` producing a model instance (see `constructVals`). -/
def pydantic_construct (mname : String) (mfs : List ModelField)
    (kwargs : List (String × Value)) : Except PyErr Value :=
  match constructVals mfs kwargs with
  | Except.error e => Except.error e
  | Except.ok vals => Except.ok (Value.pyInst mname vals)

mutual

/-- Modelled from the spec: `convert_strawberry_class_to_pydantic_model`
(conversion.py, not among the given sources) is the schema-object-to-model
direction of the "straightforward field-by-field copies (with recursive
descent)": an instance of a registered generated class is turned back into
an instance of its pydantic model by converting each stored field value and
calling the model constructor; scalars and other values pass through. -/
def convS2P (env : Env) : Value → Except PyErr Value
  | Value.prim n => Except.ok (Value.prim n)
  | Value.pyInst m vs => Except.ok (Value.pyInst m vs)
  | Value.stInst c vs =>
      match envLookupCls env c with
      | some e =>
          match convS2PFields env vs with
          | Except.error er => Except.error er
          | Except.ok kwargs => pydantic_construct e.modelName e.modelFields kwargs
      | none => Except.ok (Value.stInst c vs)

/-- Field-by-field copy step of the schema-to-model direction. -/
def convS2PFields (env : Env) :
    List (String × Value) → Except PyErr (List (String × Value))
  | [] => Except.ok []
  | (n, v) :: rest =>
      match convS2P env v with
      | Except.error e => Except.error e
      | Except.ok v2 =>
          match convS2PFields env rest with
          | Except.error e => Except.error e
          | Except.ok r2 => Except.ok ((n, v2) :: r2)

end

/-- Embeds `from_pydantic_default` (object_type.py lines 253-258) with its
default `extra = None`: it delegates to
`convert_pydantic_model_to_strawberry_class` on the given instance. -/
def from_pydantic_default (env : Env) (instance_ : Value) : Value :=
  convP2S env instance_

/-- Embeds `to_pydantic_default` (object_type.py lines 260-267): build the
keyword dictionary by converting the value of each dataclass field of the
strawberry instance, then call the model constructor.  `selfVals` are the
dataclass fields of `self` with their values; `mname` and `mfs` are the
closed-over pydantic model. -/
def to_pydantic_default (env : Env) (mname : String) (mfs : List ModelField)
    (selfVals : List (String × Value)) : Except PyErr Value :=
  match convS2PFields env selfVals with
  | Except.error e => Except.error e
  | Except.ok kwargs => pydantic_construct mname mfs kwargs

/-- No name occurs twice in the list. -/
def nodupNames : List String → Bool
  | [] => true
  | n :: rest => !(rest.contains n) && nodupNames rest

mutual

/-- Well-formedness of a value with respect to a conversion environment,
used for the round-trip property: a scalar is always good; a pydantic model
instance must be of a registered model, store exactly the model's field
names in declaration order (pydantic keeps `__fields__` as a dict of unique
names), have every stored name among the generated class's dataclass fields,
and store good values; strawberry instances are not model instances. -/
def goodVal (env : Env) : Value → Bool
  | Value.prim _ => true
  | Value.stInst _ _ => false
  | Value.pyInst m vs =>
      match envLookupModel env m with
      | some e =>
          (vs.map Prod.fst == e.modelFields.map (fun f => f.name))
          && nodupNames (vs.map Prod.fst)
          && vs.all (fun p => e.clsFieldNames.contains p.1)
          && goodVals env vs
      | none => false

/-- All values in a field list are good. -/
def goodVals (env : Env) : List (String × Value) → Bool
  | [] => true
  | (_, v) :: rest => goodVal env v && goodVals env rest

end

/-- A conversion environment is coherent when no two registrations share a
generated class name, so the class-name lookup used by the
schema-to-model direction finds the same entry as the model-name lookup. -/
def envCoherent (env : Env) : Bool :=
  nodupNames (env.map (fun e => e.clsName))

/-- Whether a decoration outcome is a raised `MissingFieldsListError`. -/
def raisesMissingFields (r : Except PyErr GeneratedCls) : Bool :=
  match r with
  | Except.error (PyErr.missingFieldsList _) => true
  | _ => false

/-- Evaluation of `wrap` when the reconciled field set is empty: the
exception is raised and the model is returned untouched. -/
theorem wrap_eq_of_empty (model : PydModel) (fields : Option (List String))
    (is_input all_fields : Bool) (cls : ClsDecl)
    (hemp : (wrapFieldsSet model fields all_fields cls).isEmpty = true) :
    wrap model fields is_input all_fields cls =
      (Except.error (PyErr.missingFieldsList cls.name), model) := by
  unfold wrap
  rw [if_pos hemp]

/-- Evaluation of `wrap` when the field build loop raises: the exception
propagates and the model is returned untouched. -/
theorem wrap_eq_of_build_error (model : PydModel) (fields : Option (List String))
    (is_input all_fields : Bool) (cls : ClsDecl) (e : PyErr)
    (hemp : (wrapFieldsSet model fields all_fields cls).isEmpty = false)
    (hb : buildModelFields model.model_fields is_input (extraFieldsDict cls)
        (wrapFieldsSet model fields all_fields cls)
        (wrapAutoFieldsSet model fields all_fields cls) = Except.error e) :
    wrap model fields is_input all_fields cls = (Except.error e, model) := by
  unfold wrap
  rw [if_neg (by simp [hemp]), hb]

/-- Evaluation of `wrap` on the success path: the generated class is built
from the model fields plus extras, and the model gets exactly one
registration attribute. -/
theorem wrap_eq_of_build_ok (model : PydModel) (fields : Option (List String))
    (is_input all_fields : Bool) (cls : ClsDecl)
    (built : List DataclassCreationFields)
    (hemp : (wrapFieldsSet model fields all_fields cls).isEmpty = false)
    (hb : buildModelFields model.model_fields is_input (extraFieldsDict cls)
        (wrapFieldsSet model fields all_fields cls)
        (wrapAutoFieldsSet model fields all_fields cls) = Except.ok built) :
    wrap model fields is_input all_fields cls =
      (Except.ok
        { name := cls.name
          creationFields :=
            built ++ extraCreationFields cls (wrapFieldsSet model fields all_fields cls)
          pydantic_type := model.name
          is_input := is_input },
       registerGenerated model is_input cls.name) := by
  unfold wrap
  rw [if_neg (by simp [hemp]), hb]

/-- The argument walk `replaceArgs` is exactly `mapM` of the substitution
over the argument list. -/
theorem replaceArgs_eq_mapM (is_input : Bool) (l : List PyType) :
    replaceArgs is_input l = l.mapM (replace_pydantic_types is_input) := by
  induction l with
  | nil => rfl
  | cons t rest ih =>
      rw [replaceArgs, List.mapM_cons, ih]
      cases replace_pydantic_types is_input t <;>
        cases rest.mapM (replace_pydantic_types is_input) <;> rfl

/-- C6: type substitution is a shallow recursive walk: a generic type
carrying `__args__` (other than `Literal`) is rebuilt with each argument
recursively substituted, `Literal` returns early unchanged, and a type that
is neither generic nor a pydantic model is returned unchanged. -/
theorem replace_pydantic_types_shallow_walk (is_input : Bool) :
    (∀ origin args, replace_pydantic_types is_input (PyType.generic origin args) =
        (args.mapM (replace_pydantic_types is_input)).map (PyType.generic origin)) ∧
    (∀ args, replace_pydantic_types is_input (PyType.literal args) =
        Except.ok (PyType.literal args)) ∧
    (∀ s, replace_pydantic_types is_input (PyType.basic s) =
        Except.ok (PyType.basic s)) ∧
    (∀ s, replace_pydantic_types is_input (PyType.unsupported s) =
        Except.ok (PyType.unsupported s)) ∧
    (∀ s, replace_pydantic_types is_input (PyType.strawberryCls s) =
        Except.ok (PyType.strawberryCls s)) := by
  refine ⟨fun origin args => ?_, fun args => by simp [replace_pydantic_types],
    fun s => by simp [replace_pydantic_types], fun s => by simp [replace_pydantic_types],
    fun s => by simp [replace_pydantic_types]⟩
  rw [← replaceArgs_eq_mapM]
  simp only [replace_pydantic_types]
  cases replaceArgs is_input args <;> rfl

/-- C5: during type substitution, a pydantic model class carrying the
registration attribute for the requested direction
(`_strawberry_input_type` when building an input type, `_strawberry_type`
otherwise) is replaced by the registered schema type; one not carrying it
raises `UnregisteredTypeException`. -/
theorem replace_pydantic_types_registration (ref : ModelRef) (is_input : Bool) :
    (is_input = true →
      (∀ s, ref.strawberryInputType = some s →
        replace_pydantic_types is_input (PyType.pyModel ref) =
          Except.ok (PyType.strawberryCls s)) ∧
      (ref.strawberryInputType = none →
        replace_pydantic_types is_input (PyType.pyModel ref) =
          Except.error (PyErr.unregisteredType ref.name))) ∧
    (is_input = false →
      (∀ s, ref.strawberryType = some s →
        replace_pydantic_types is_input (PyType.pyModel ref) =
          Except.ok (PyType.strawberryCls s)) ∧
      (ref.strawberryType = none →
        replace_pydantic_types is_input (PyType.pyModel ref) =
          Except.error (PyErr.unregisteredType ref.name))) := by
  constructor
  · intro hi
    subst hi
    exact ⟨fun s hs => by simp [replace_pydantic_types, hs],
           fun hs => by simp [replace_pydantic_types, hs]⟩
  · intro hi
    subst hi
    exact ⟨fun s hs => by simp [replace_pydantic_types, hs],
           fun hs => by simp [replace_pydantic_types, hs]⟩

/-- Witness for C5 at a concrete model reference, in both directions. -/
theorem replace_pydantic_types_registration_witness :
    replace_pydantic_types true
        (PyType.pyModel ⟨"User", none, some "UserInput"⟩) =
      Except.ok (PyType.strawberryCls "UserInput") ∧
    replace_pydantic_types false
        (PyType.pyModel ⟨"User", none, some "UserInput"⟩) =
      Except.error (PyErr.unregisteredType "User") :=
  ⟨((replace_pydantic_types_registration ⟨"User", none, some "UserInput"⟩ true).1 rfl).1
      "UserInput" rfl,
   ((replace_pydantic_types_registration ⟨"User", none, some "UserInput"⟩ false).2 rfl).2 rfl⟩

/-- C8: for an auto field the synthesized type is the substituted type,
wrapped in `Optional` exactly when the pydantic field's required flag is
False. -/
theorem get_type_for_field_optional_wrap (field : ModelField) (is_input : Bool)
    (t : PyType)
    (h : (get_basic_type field.outer_type).bind (replace_pydantic_types is_input) =
      Except.ok t) :
    (field.required = false →
      get_type_for_field field is_input = Except.ok (mkOptional t)) ∧
    (field.required = true →
      get_type_for_field field is_input = Except.ok t) := by
  cases hb : get_basic_type field.outer_type with
  | error e => rw [hb] at h; simp [Except.bind] at h
  | ok t1 =>
      rw [hb] at h
      simp only [Except.bind] at h
      cases hr : replace_pydantic_types is_input t1 with
      | error e => rw [hr] at h; simp at h
      | ok t2 =>
          rw [hr] at h
          injection h with h2
          subst h2
          constructor <;> intro hreq <;>
            simp [get_type_for_field, hb, hr, hreq]

/-- Witness for C8: a non-required int field gets an Optional wrapper, a
required one does not. -/
theorem get_type_for_field_optional_wrap_witness :
    get_type_for_field
        ⟨"age", PyType.basic "int", false, "", false, none, Value.prim 0⟩ false =
      Except.ok (PyType.generic "Optional" [PyType.basic "int"]) ∧
    get_type_for_field
        ⟨"age", PyType.basic "int", true, "", false, none, Value.prim 0⟩ false =
      Except.ok (PyType.basic "int") := by
  constructor
  · have h := (get_type_for_field_optional_wrap
        ⟨"age", PyType.basic "int", false, "", false, none, Value.prim 0⟩ false
        (PyType.basic "int") (by rfl)).1 rfl
    simpa [mkOptional] using h
  · exact (get_type_for_field_optional_wrap
        ⟨"age", PyType.basic "int", true, "", false, none, Value.prim 0⟩ false
        (PyType.basic "int") (by rfl)).2 rfl

/-- C4: in `_build_dataclass_creation_fields`, a field in the auto set gets
its type from `get_type_for_field`, while a copied field not in the auto set
gets the user's existing field type (explicit wins over auto-derived). -/
theorem build_dataclass_creation_fields_type (field : ModelField) (is_input : Bool)
    (existing : List (String × StrawberryField)) (auto_set : List String) :
    (auto_set.contains field.name = true →
      (_build_dataclass_creation_fields field is_input existing auto_set).map
          (fun d => d.type_ann) =
        get_type_for_field field is_input) ∧
    (auto_set.contains field.name = false →
      ∀ sf, lookupField existing field.name = some sf →
        (_build_dataclass_creation_fields field is_input existing auto_set).map
            (fun d => d.type_ann) =
          Except.ok sf.type_ann) := by
  constructor
  · intro ha
    have ha' : field.name ∈ auto_set := List.elem_iff.mp ha
    cases hg : get_type_for_field field is_input with
    | error e => simp [_build_dataclass_creation_fields, ha', hg, Except.map]
    | ok t => simp [_build_dataclass_creation_fields, ha', hg, Except.map]
  · intro ha sf hsf
    have ha' : field.name ∉ auto_set := by
      intro hm
      have h2 : auto_set.contains field.name = true := List.elem_iff.mpr hm
      rw [ha] at h2
      exact Bool.false_ne_true h2
    simp [_build_dataclass_creation_fields, ha', hsf, Except.map]

/-- Witness for C4: with the auto set containing the field, the pydantic
type is used; otherwise the existing annotated type wins. -/
theorem build_dataclass_creation_fields_type_witness :
    (_build_dataclass_creation_fields
        ⟨"age", PyType.basic "int", true, "", false, none, Value.prim 0⟩ false
        [("age", ⟨"age", none, PyType.basic "str", none, false⟩)] ["age"]).map
        (fun d => d.type_ann) =
      Except.ok (PyType.basic "int") ∧
    (_build_dataclass_creation_fields
        ⟨"age", PyType.basic "int", true, "", false, none, Value.prim 0⟩ false
        [("age", ⟨"age", none, PyType.basic "str", none, false⟩)] []).map
        (fun d => d.type_ann) =
      Except.ok (PyType.basic "str") := by
  constructor
  · have h := (build_dataclass_creation_fields_type
        ⟨"age", PyType.basic "int", true, "", false, none, Value.prim 0⟩ false
        [("age", ⟨"age", none, PyType.basic "str", none, false⟩)] ["age"]).1 rfl
    rw [h]
    rfl
  · exact (build_dataclass_creation_fields_type
        ⟨"age", PyType.basic "int", true, "", false, none, Value.prim 0⟩ false
        [("age", ⟨"age", none, PyType.basic "str", none, false⟩)] []).2 rfl
        ⟨"age", none, PyType.basic "str", none, false⟩ rfl

/-- C10: the generated class's `is_type_of` accepts an object exactly when
it is an instance of the generated class or an instance of the source
pydantic model. -/
theorem is_type_of_membership (cls model : String) (obj : PyObj) :
    is_type_of cls model obj = true ↔
      (isinstance obj cls = true ∨ isinstance obj model = true) := by
  simp [is_type_of, isinstanceTuple]

/-- C3: field-set reconciliation is the set union: without `all_fields`,
the copied set is the explicit list united with the annotated names that
match pydantic model fields, and the auto set is the explicit list united
with the names annotated `strawberry.auto`; with `all_fields` both sets are
exactly the model's field names, regardless of list or annotations. -/
theorem field_set_reconciliation (model : PydModel) (fields : Option (List String))
    (cls : ClsDecl) (x : String) :
    (x ∈ wrapFieldsSet model fields false cls ↔
      (x ∈ originalFieldsSet fields ∨
        ∃ cf ∈ cls.clsFields, cf.name = x ∧ x ∈ modelFieldNames model)) ∧
    (x ∈ wrapAutoFieldsSet model fields false cls ↔
      (x ∈ originalFieldsSet fields ∨
        ∃ cf ∈ cls.clsFields, cf.name = x ∧ cf.annot.isAuto = true)) ∧
    wrapFieldsSet model fields true cls = modelFieldNames model ∧
    wrapAutoFieldsSet model fields true cls = modelFieldNames model := by
  refine ⟨?_, ?_, by simp [wrapFieldsSet], by simp [wrapAutoFieldsSet]⟩
  · simp only [wrapFieldsSet, Bool.false_eq_true, if_false, computeFieldsSet,
      List.mem_append, List.mem_map, List.mem_filter]
    constructor
    · rintro (h | ⟨cf, ⟨hmem, hcont⟩, hname⟩)
      · exact Or.inl h
      · exact Or.inr ⟨cf, hmem, hname, hname ▸ List.elem_iff.mp hcont⟩
    · rintro (h | ⟨cf, hmem, hname, hx⟩)
      · exact Or.inl h
      · exact Or.inr ⟨cf, ⟨hmem, List.elem_iff.mpr (hname ▸ hx)⟩, hname⟩
  · simp only [wrapAutoFieldsSet, Bool.false_eq_true, if_false, computeAutoFieldsSet,
      List.mem_append, List.mem_map, List.mem_filter]
    constructor
    · rintro (h | ⟨cf, ⟨hmem, hauto⟩, hname⟩)
      · exact Or.inl h
      · exact Or.inr ⟨cf, hmem, hname, hauto⟩
    · rintro (h | ⟨cf, hmem, hname, hauto⟩)
      · exact Or.inl h
      · exact Or.inr ⟨cf, ⟨hmem, hauto⟩, hname⟩

/-- An exception escaping type substitution is never a
`MissingFieldsListError` (it is always `UnregisteredTypeException`). -/
theorem replace_pydantic_types_error_not_missing (is_input : Bool) (t : PyType) :
    ∀ e, replace_pydantic_types is_input t = Except.error e →
      ∀ s, e ≠ PyErr.missingFieldsList s := by
  refine replace_pydantic_types.induct is_input
    (fun t => ∀ e, replace_pydantic_types is_input t = Except.error e →
      ∀ s, e ≠ PyErr.missingFieldsList s)
    (fun l => ∀ e, replaceArgs is_input l = Except.error e →
      ∀ s, e ≠ PyErr.missingFieldsList s)
    ?_ ?_ ?_ ?_ ?_ ?_ ?_ ?_ ?_ ?_ ?_ ?_ ?_ ?_ t
  · intro args e h s
    simp [replace_pydantic_types] at h
  · intro origin args newArgs hok _ e h s
    simp [replace_pydantic_types, hok] at h
  · intro origin args e0 herr ih e h s
    simp only [replace_pydantic_types] at h
    rw [herr] at h
    injection h with h2
    subst h2
    exact ih e0 herr s
  · intro ref hi s0 hsome e h s
    simp [replace_pydantic_types, hi, hsome] at h
  · intro ref hi hnone e h s
    simp only [replace_pydantic_types, hi, if_true, hnone] at h
    injection h with h2
    subst h2
    simp
  · intro ref hi s0 hsome e h s
    rw [Bool.not_eq_true] at hi
    simp [replace_pydantic_types, hi, hsome] at h
  · intro ref hi hnone e h s
    rw [Bool.not_eq_true] at hi
    simp only [replace_pydantic_types, hi, Bool.false_eq_true, if_false, hnone] at h
    injection h with h2
    subst h2
    simp
  · intro s0 e h s
    simp [replace_pydantic_types] at h
  · intro s0 e h s
    simp [replace_pydantic_types] at h
  · intro s0 e h s
    simp [replace_pydantic_types] at h
  · intro e h s
    simp [replaceArgs] at h
  · intro t0 rest e0 herr ih e h s
    simp only [replaceArgs] at h
    rw [herr] at h
    injection h with h2
    subst h2
    exact ih e0 herr s
  · intro t0 rest t2 hok e0 herr ih1 ih2 e h s
    simp only [replaceArgs] at h
    rw [hok, herr] at h
    injection h with h2
    subst h2
    exact ih2 e0 herr s
  · intro t0 rest t2 hok r2 hr2 ih1 ih2 e h s
    simp [replaceArgs, hok, hr2] at h

/-- An exception escaping the basic-type mapping is always
`UnsupportedTypeError`. -/
theorem get_basic_type_error_shape (t : PyType) (e : PyErr)
    (h : get_basic_type t = Except.error e) : ∃ n, e = PyErr.unsupportedType n := by
  cases t <;> simp [get_basic_type] at h
  exact ⟨_, h.symm⟩

/-- An exception escaping `get_type_for_field` is never a
`MissingFieldsListError`. -/
theorem get_type_for_field_error_not_missing (field : ModelField) (is_input : Bool)
    (e : PyErr) (h : get_type_for_field field is_input = Except.error e) :
    ∀ s, e ≠ PyErr.missingFieldsList s := by
  intro s
  unfold get_type_for_field at h
  split at h
  · rename_i e2 hb
    injection h with h2
    subst h2
    obtain ⟨n, hn⟩ := get_basic_type_error_shape field.outer_type e2 hb
    subst hn
    simp
  · rename_i t1 hb
    split at h
    · rename_i e2 hr
      injection h with h2
      subst h2
      exact replace_pydantic_types_error_not_missing is_input t1 e2 hr s
    · simp at h

/-- An exception escaping `_build_dataclass_creation_fields` is never a
`MissingFieldsListError`. -/
theorem build_creation_fields_error_not_missing (field : ModelField) (is_input : Bool)
    (existing : List (String × StrawberryField)) (auto_set : List String) (e : PyErr)
    (h : _build_dataclass_creation_fields field is_input existing auto_set =
      Except.error e) :
    ∀ s, e ≠ PyErr.missingFieldsList s := by
  intro s
  unfold _build_dataclass_creation_fields at h
  split at h
  · rename_i e0 heq
    injection h with h2
    subst h2
    split at heq
    · exact get_type_for_field_error_not_missing field is_input e0 heq s
    · split at heq
      · simp at heq
      · injection heq with h3
        subst h3
        simp
  · simp at h

/-- An exception escaping the model-field build loop is never a
`MissingFieldsListError`. -/
theorem buildModelFields_error_not_missing (mfs : List ModelField) (is_input : Bool)
    (existing : List (String × StrawberryField)) (fs as : List String) (e : PyErr)
    (h : buildModelFields mfs is_input existing fs as = Except.error e) :
    ∀ s, e ≠ PyErr.missingFieldsList s := by
  induction mfs with
  | nil => simp [buildModelFields] at h
  | cons f rest ih =>
      intro s
      simp only [buildModelFields] at h
      split at h
      · split at h
        · rename_i e2 hb
          injection h with h2
          subst h2
          exact build_creation_fields_error_not_missing f is_input existing as e2 hb s
        · split at h
          · rename_i hr
            injection h with h2
            subst h2
            exact ih hr s
          · simp at h
      · exact ih h s

/-- The reconciled field set is empty exactly when either `all_fields` is
set on a model with no fields, or `all_fields` is off, no non-empty
explicit list was passed, and no annotated member names a pydantic model
field. -/
theorem wrapFieldsSet_empty_iff (model : PydModel) (fields : Option (List String))
    (all_fields : Bool) (cls : ClsDecl) :
    wrapFieldsSet model fields all_fields cls = [] ↔
      ((all_fields = true ∧ model.model_fields = []) ∨
       (all_fields = false ∧ originalFieldsSet fields = [] ∧
        ∀ cf ∈ cls.clsFields, cf.name ∉ modelFieldNames model)) := by
  cases all_fields with
  | true =>
      simp only [wrapFieldsSet, if_true, modelFieldNames]
      simp [List.map_eq_nil_iff]
  | false =>
      simp only [wrapFieldsSet, Bool.false_eq_true, if_false, computeFieldsSet,
        List.append_eq_nil, List.map_eq_nil_iff, List.filter_eq_nil_iff]
      constructor
      · rintro ⟨h1, h2⟩
        refine Or.inr ⟨by trivial, h1, fun cf hmem hcont => ?_⟩
        exact h2 cf hmem (List.elem_iff.mpr hcont)
      · rintro (⟨h, _⟩ | ⟨_, h1, h2⟩)
        · exact absurd h (by simp)
        · exact ⟨h1, fun cf hmem hcont => h2 cf hmem (List.elem_iff.mp hcont)⟩

/-- C2 (amended): decoration raises `MissingFieldsListError` exactly when
the reconciled `fields_set` is empty, i.e. either `all_fields` is True and
the pydantic model has no fields, or `all_fields` is False, no non-empty
`fields` list was passed, and no class annotation names a pydantic model
field.  (Annotations typed `strawberry.auto` whose names are not pydantic
model fields do not prevent the error.) -/
theorem wrap_missing_fields_iff (model : PydModel) (fields : Option (List String))
    (is_input all_fields : Bool) (cls : ClsDecl) :
    raisesMissingFields (wrap model fields is_input all_fields cls).1 = true ↔
      ((all_fields = true ∧ model.model_fields = []) ∨
       (all_fields = false ∧ originalFieldsSet fields = [] ∧
        ∀ cf ∈ cls.clsFields, cf.name ∉ modelFieldNames model)) := by
  rw [← wrapFieldsSet_empty_iff model fields all_fields cls]
  cases hemp : (wrapFieldsSet model fields all_fields cls).isEmpty with
  | true =>
      rw [wrap_eq_of_empty model fields is_input all_fields cls hemp]
      exact ⟨fun _ => List.isEmpty_iff.mp hemp, fun _ => rfl⟩
  | false =>
      have hne : wrapFieldsSet model fields all_fields cls ≠ [] := by
        intro hmt
        rw [hmt] at hemp
        simp at hemp
      cases hb : buildModelFields model.model_fields is_input (extraFieldsDict cls)
          (wrapFieldsSet model fields all_fields cls)
          (wrapAutoFieldsSet model fields all_fields cls) with
      | error e =>
          rw [wrap_eq_of_build_error model fields is_input all_fields cls e hemp hb]
          constructor
          · intro hr
            exfalso
            cases e with
            | missingFieldsList s =>
                exact buildModelFields_error_not_missing _ _ _ _ _ _ hb s rfl
            | unsupportedType s => simp [raisesMissingFields] at hr
            | unregisteredType s => simp [raisesMissingFields] at hr
            | keyError s => simp [raisesMissingFields] at hr
            | validationError s => simp [raisesMissingFields] at hr
          · intro hr
            exact absurd hr hne
      | ok built =>
          rw [wrap_eq_of_build_ok model fields is_input all_fields cls built hemp hb]
          constructor
          · intro hr
            simp [raisesMissingFields] at hr
          · intro hr
            exact absurd hr hne

/-- C2 counterexample: with a class whose only annotated member is typed
`strawberry.auto` under a name that is not a pydantic model field (no
explicit list, `all_fields` off), the claim as stated predicts no
`MissingFieldsListError` since an annotation names the auto marker, yet the
decorator raises it: `fields_set` ignores auto-typed names that do not match
model fields, so the reconciled set is empty. -/
theorem wrap_missing_fields_cex :
    ¬ (raisesMissingFields
          (wrap ⟨"M", [⟨"age", PyType.basic "int", true, "", false, none, Value.prim 0⟩],
              none, none, []⟩
            none false false ⟨"MType", [⟨"x", Annot.auto, false⟩], []⟩).1 = true →
        ((⟨"MType", [⟨"x", Annot.auto, false⟩], []⟩ : ClsDecl).clsFields.all
            (fun cf =>
              !((modelFieldNames ⟨"M",
                  [⟨"age", PyType.basic "int", true, "", false, none, Value.prim 0⟩],
                  none, none, []⟩).contains cf.name) && !(cf.annot.isAuto)) = true)) := by
  intro hclaim
  have h := hclaim rfl
  simp [Annot.isAuto] at h

/-- C9: when decoration fails with `MissingFieldsListError`, the pydantic
model class is returned unchanged — in particular neither `_strawberry_type`
nor `_strawberry_input_type` has been set — because the error is raised
before any registration attribute is assigned. -/
theorem wrap_missing_fields_no_mutation (model : PydModel)
    (fields : Option (List String)) (is_input all_fields : Bool) (cls : ClsDecl)
    (n : String)
    (h : (wrap model fields is_input all_fields cls).1 =
      Except.error (PyErr.missingFieldsList n)) :
    (wrap model fields is_input all_fields cls).2 = model ∧
    (wrap model fields is_input all_fields cls).2.strawberry_type =
      model.strawberry_type ∧
    (wrap model fields is_input all_fields cls).2.strawberry_input_type =
      model.strawberry_input_type := by
  have hsnd : (wrap model fields is_input all_fields cls).2 = model := by
    cases hemp : (wrapFieldsSet model fields all_fields cls).isEmpty with
    | true => rw [wrap_eq_of_empty model fields is_input all_fields cls hemp]
    | false =>
        cases hb : buildModelFields model.model_fields is_input (extraFieldsDict cls)
            (wrapFieldsSet model fields all_fields cls)
            (wrapAutoFieldsSet model fields all_fields cls) with
        | error e =>
            rw [wrap_eq_of_build_error model fields is_input all_fields cls e hemp hb]
        | ok built =>
            rw [wrap_eq_of_build_ok model fields is_input all_fields cls built hemp hb]
              at h
            simp at h
  exact ⟨hsnd, by rw [hsnd], by rw [hsnd]⟩

/-- Witness for C9: decorating a class with no matching members leaves the
model's registration attributes unset. -/
theorem wrap_missing_fields_no_mutation_witness :
    (wrap ⟨"M", [⟨"age", PyType.basic "int", true, "", false, none, Value.prim 0⟩],
        none, none, [("doc", "m")]⟩
      none false false ⟨"MType", [], []⟩).2 =
    ⟨"M", [⟨"age", PyType.basic "int", true, "", false, none, Value.prim 0⟩],
        none, none, [("doc", "m")]⟩ :=
  (wrap_missing_fields_no_mutation
    ⟨"M", [⟨"age", PyType.basic "int", true, "", false, none, Value.prim 0⟩],
        none, none, [("doc", "m")]⟩
    none false false ⟨"MType", [], []⟩ "MType" rfl).1

/-- C7: on success, decoration's only change to the pydantic model class is
setting exactly one registration attribute to the generated class —
`_strawberry_input_type` when building an input type, `_strawberry_type`
otherwise — while the other registration attribute and every other modelled
attribute (name, fields, attribute dictionary) are unchanged; the generated
class's `_pydantic_type` points back to the model. -/
theorem wrap_success_mutation_frame (model : PydModel)
    (fields : Option (List String)) (is_input all_fields : Bool) (cls : ClsDecl)
    (g : GeneratedCls)
    (h : (wrap model fields is_input all_fields cls).1 = Except.ok g) :
    ((wrap model fields is_input all_fields cls).2.name = model.name ∧
     (wrap model fields is_input all_fields cls).2.model_fields =
       model.model_fields ∧
     (wrap model fields is_input all_fields cls).2.attrs = model.attrs) ∧
    (is_input = true →
      (wrap model fields is_input all_fields cls).2.strawberry_input_type =
        some cls.name ∧
      (wrap model fields is_input all_fields cls).2.strawberry_type =
        model.strawberry_type) ∧
    (is_input = false →
      (wrap model fields is_input all_fields cls).2.strawberry_type =
        some cls.name ∧
      (wrap model fields is_input all_fields cls).2.strawberry_input_type =
        model.strawberry_input_type) ∧
    g.pydantic_type = model.name := by
  cases hemp : (wrapFieldsSet model fields all_fields cls).isEmpty with
  | true =>
      rw [wrap_eq_of_empty model fields is_input all_fields cls hemp] at h
      simp at h
  | false =>
      cases hb : buildModelFields model.model_fields is_input (extraFieldsDict cls)
          (wrapFieldsSet model fields all_fields cls)
          (wrapAutoFieldsSet model fields all_fields cls) with
      | error e =>
          rw [wrap_eq_of_build_error model fields is_input all_fields cls e hemp hb] at h
          simp at h
      | ok built =>
          have heq := wrap_eq_of_build_ok model fields is_input all_fields cls built hemp hb
          rw [heq] at h ⊢
          simp only [] at h
          injection h with h2
          subst h2
          cases is_input with
          | true => simp [registerGenerated]
          | false => simp [registerGenerated]

/-- Witness for C7: a successful non-input decoration sets only
`_strawberry_type` and leaves the input registration and the attribute
dictionary untouched. -/
theorem wrap_success_mutation_frame_witness :
    (wrap ⟨"M", [⟨"age", PyType.basic "int", true, "", false, none, Value.prim 0⟩],
        none, none, [("doc", "m")]⟩
      none false false ⟨"MType", [⟨"age", Annot.auto, false⟩], []⟩).2.strawberry_type =
      some "MType" ∧
    (wrap ⟨"M", [⟨"age", PyType.basic "int", true, "", false, none, Value.prim 0⟩],
        none, none, [("doc", "m")]⟩
      none false false ⟨"MType", [⟨"age", Annot.auto, false⟩], []⟩).2.strawberry_input_type =
      none ∧
    (wrap ⟨"M", [⟨"age", PyType.basic "int", true, "", false, none, Value.prim 0⟩],
        none, none, [("doc", "m")]⟩
      none false false ⟨"MType", [⟨"age", Annot.auto, false⟩], []⟩).2.attrs =
      [("doc", "m")] := by
  have h := wrap_success_mutation_frame
    ⟨"M", [⟨"age", PyType.basic "int", true, "", false, none, Value.prim 0⟩],
        none, none, [("doc", "m")]⟩
    none false false ⟨"MType", [⟨"age", Annot.auto, false⟩], []⟩
    ⟨"MType", [⟨"age", PyType.basic "int",
        ⟨"age", none, PyType.basic "int", none, false⟩⟩], "M", false⟩
    (by rfl)
  exact ⟨(h.2.2.1 rfl).1, (h.2.2.1 rfl).2, h.1.2.2⟩

/-- A successful model lookup returns a registration for that model name,
and the entry belongs to the environment. -/
theorem envLookupModel_spec (env : Env) (m : String) (e : EnvEntry)
    (h : envLookupModel env m = some e) : e.modelName = m ∧ e ∈ env := by
  unfold envLookupModel at h
  refine ⟨?_, List.mem_of_find?_eq_some h⟩
  have hp := List.find?_some h
  exact eq_of_beq hp

/-- In a list of names with no duplicates, a prefix never contains a name
that occurs right after it. -/
theorem nodup_append_not_contains (xs ys : List String) (n : String)
    (h : nodupNames (xs ++ n :: ys) = true) : xs.contains n = false := by
  induction xs with
  | nil => rfl
  | cons x xt ih =>
      simp only [List.cons_append, nodupNames, Bool.and_eq_true,
        Bool.not_eq_true', List.append_eq] at h
      obtain ⟨hx, ht⟩ := h
      by_cases hxn : (x == n) = true
      · exfalso
        have hxeq : x = n := eq_of_beq hxn
        subst hxeq
        have hc : (xt ++ x :: ys).contains x = true := by
          apply List.elem_iff.mpr
          simp
        rw [hc] at hx
        exact (Bool.true_eq_false ▸ hx)
      · have hrec := ih ht
        have h1 : (n == x) = false := by
          by_cases hnx : (n == x) = true
          · exfalso
            apply hxn
            have heq : n = x := eq_of_beq hnx
            rw [heq]
            exact beq_self_eq_true x
          · exact Bool.eq_false_iff.mpr hnx
        rw [List.contains_cons, h1, hrec]
        rfl

/-- Class-name lookup of a member of a coherent environment finds exactly
that member. -/
theorem envLookupCls_of_mem (env : Env) (e : EnvEntry)
    (hmem : e ∈ env) (hco : envCoherent env = true) :
    envLookupCls env e.clsName = some e := by
  induction env with
  | nil => cases hmem
  | cons h t ih =>
      simp only [envCoherent, List.map_cons, nodupNames, Bool.and_eq_true,
        Bool.not_eq_true'] at hco
      obtain ⟨hh, ht⟩ := hco
      cases List.mem_cons.mp hmem with
      | inl heq =>
          subst heq
          simp [envLookupCls, List.find?]
      | inr hmem2 =>
          have hne : (h.clsName == e.clsName) = false := by
            by_cases hbeq : (h.clsName == e.clsName) = true
            · exfalso
              have heq : h.clsName = e.clsName := eq_of_beq hbeq
              have hc : (t.map (fun x => x.clsName)).contains h.clsName = true := by
                apply List.elem_iff.mpr
                rw [heq]
                exact List.mem_map_of_mem _ hmem2
              rw [hc] at hh
              exact (Bool.true_eq_false ▸ hh)
            · exact Bool.eq_false_iff.mpr hbeq
          have hstep : envLookupCls (h :: t) e.clsName = envLookupCls t e.clsName := by
            simp [envLookupCls, List.find?, hne]
          rw [hstep]
          exact ih hmem2 ht

/-- Keyword lookup skips a prefix whose names avoid the key and finds the
first binding of the key. -/
theorem lookupVal_middle (pre : List (String × Value)) (n : String) (v : Value)
    (vt : List (String × Value))
    (hpre : (pre.map Prod.fst).contains n = false) :
    lookupVal (pre ++ (n, v) :: vt) n = some v := by
  induction pre with
  | nil => simp [lookupVal, List.find?]
  | cons p pt ih =>
      obtain ⟨m0, w⟩ := p
      simp only [List.map_cons, List.contains_cons, Bool.or_eq_false_iff] at hpre
      obtain ⟨h1, h2⟩ := hpre
      have hne : (m0 == n) = false := by
        by_cases hb : (m0 == n) = true
        · exfalso
          have heq : m0 = n := eq_of_beq hb
          subst heq
          rw [beq_self_eq_true] at h1
          exact (Bool.true_eq_false ▸ h1)
        · exact Bool.eq_false_iff.mpr hb
      have hstep : lookupVal (((m0, w) :: pt) ++ (n, v) :: vt) n =
          lookupVal (pt ++ (n, v) :: vt) n := by
        simp [lookupVal, List.find?, hne]
      rw [hstep]
      exact ih h2

/-- Modelled pydantic construction is the identity on a keyword dictionary
that binds exactly the declared field names, in declaration order and
without duplicates; the `pre` prefix accounts for the keywords consumed by
earlier fields (the whole dictionary is passed down unchanged). -/
theorem constructVals_append (mfs : List ModelField) :
    ∀ pre vs : List (String × Value),
      vs.map Prod.fst = mfs.map (fun f => f.name) →
      nodupNames ((pre ++ vs).map Prod.fst) = true →
      constructVals mfs (pre ++ vs) = Except.ok vs := by
  induction mfs with
  | nil =>
      intro pre vs h1 _
      have hnil : vs = [] := by
        cases vs with
        | nil => rfl
        | cons a t => simp at h1
      subst hnil
      simp [constructVals]
  | cons f ft ih =>
      intro pre vs h1 h2
      cases vs with
      | nil => simp at h1
      | cons p vt =>
          obtain ⟨n, v⟩ := p
          simp only [List.map_cons, List.cons.injEq] at h1
          obtain ⟨hn, h1t⟩ := h1
          subst hn
          have hpre : (pre.map Prod.fst).contains f.name = false := by
            have h2x : nodupNames
                (pre.map Prod.fst ++ f.name :: vt.map Prod.fst) = true := by
              simpa using h2
            exact nodup_append_not_contains _ _ _ h2x
          have hlook : lookupVal (pre ++ (f.name, v) :: vt) f.name = some v :=
            lookupVal_middle pre f.name v vt hpre
          have hassoc : pre ++ (f.name, v) :: vt = (pre ++ [(f.name, v)]) ++ vt := by
            simp
          have hrec : constructVals ft ((pre ++ [(f.name, v)]) ++ vt) =
              Except.ok vt := by
            apply ih
            · exact h1t
            · rw [← hassoc]
              exact h2
          simp only [constructVals, hlook]
          rw [hassoc, hrec]

/-- Round trip of the two conversion directions on well-formed values over
a coherent environment: converting a model instance to its schema instance
and back is the identity. -/
theorem conv_roundtrip (env : Env) (hco : envCoherent env = true) (v : Value)
    (hg : goodVal env v = true) :
    convS2P env (convP2S env v) = Except.ok v := by
  refine convP2S.induct env
    (fun v => goodVal env v = true → convS2P env (convP2S env v) = Except.ok v)
    (fun fnames vs => vs.all (fun p => fnames.contains p.1) = true →
      goodVals env vs = true →
      convS2PFields env (convP2SFields env fnames vs) = Except.ok vs)
    ?_ ?_ ?_ ?_ ?_ ?_ ?_ v hg
  · intro n _
    simp [convP2S, convS2P]
  · intro c vs hg2
    simp [goodVal] at hg2
  · intro m vs e he ih hg2
    simp only [goodVal, he, Bool.and_eq_true] at hg2
    obtain ⟨⟨⟨c1, c2⟩, c3⟩, c4⟩ := hg2
    obtain ⟨hmn, hmem⟩ := envLookupModel_spec env m e he
    have hcls : envLookupCls env e.clsName = some e := envLookupCls_of_mem env e hmem hco
    have hfields : convS2PFields env (convP2SFields env e.clsFieldNames vs) =
        Except.ok vs := ih c3 c4
    have hstep : convP2S env (Value.pyInst m vs) =
        Value.stInst e.clsName (convP2SFields env e.clsFieldNames vs) := by
      simp [convP2S, he]
    rw [hstep]
    simp only [convS2P, hcls, hfields]
    unfold pydantic_construct
    have hcv : constructVals e.modelFields vs = Except.ok vs := by
      have hap := constructVals_append e.modelFields [] vs (by
        have c1x : vs.map Prod.fst = e.modelFields.map (fun f => f.name) := by
          have := c1
          exact eq_of_beq this
        exact c1x) (by simpa using c2)
      simpa using hap
    rw [hcv, hmn]
  · intro m vs hnone hg2
    simp [goodVal, hnone] at hg2
  · intro fnames _ _
    simp [convP2SFields, convS2PFields]
  · intro fnames n v rest hc ih1 ih2 hall hgood
    simp only [List.all_cons, Bool.and_eq_true] at hall
    obtain ⟨_, hall2⟩ := hall
    simp only [goodVals, Bool.and_eq_true] at hgood
    obtain ⟨hgv, hgrest⟩ := hgood
    have e1 : convP2SFields env fnames ((n, v) :: rest) =
        (n, convP2S env v) :: convP2SFields env fnames rest := by
      simp [convP2SFields, List.elem_iff.mp hc]
    rw [e1]
    simp only [convS2PFields, ih1 hgv, ih2 hall2 hgrest]
  · intro fnames n v rest hc ih2 hall hgood
    simp only [List.all_cons, Bool.and_eq_true] at hall
    exact absurd hall.1 hc

/-- C1 (amended): for a pydantic model instance of a decorated model whose
generated schema type's dataclass fields cover every stored model field —
with the instance well formed and every nested registered model likewise
covered (`goodVal`), over a coherent registration environment — the default
`from_pydantic` produces the schema instance holding the copied fields, and
the default `to_pydantic` on that result reconstructs a model instance
equal to the original. -/
theorem from_to_pydantic_roundtrip (env : Env) (m : String)
    (vs : List (String × Value)) (e : EnvEntry)
    (hco : envCoherent env = true)
    (he : envLookupModel env m = some e)
    (hg : goodVal env (Value.pyInst m vs) = true) :
    from_pydantic_default env (Value.pyInst m vs) =
      Value.stInst e.clsName (convP2SFields env e.clsFieldNames vs) ∧
    to_pydantic_default env e.modelName e.modelFields
      (convP2SFields env e.clsFieldNames vs) = Except.ok (Value.pyInst m vs) := by
  have hstep : convP2S env (Value.pyInst m vs) =
      Value.stInst e.clsName (convP2SFields env e.clsFieldNames vs) := by
    simp [convP2S, he]
  refine ⟨by simpa [from_pydantic_default] using hstep, ?_⟩
  have h := conv_roundtrip env hco (Value.pyInst m vs) hg
  rw [hstep] at h
  obtain ⟨hmn, hmem⟩ := envLookupModel_spec env m e he
  have hcls : envLookupCls env e.clsName = some e := envLookupCls_of_mem env e hmem hco
  simp only [convS2P, hcls] at h
  simp only [to_pydantic_default]
  cases hf : convS2PFields env (convP2SFields env e.clsFieldNames vs) with
  | error er =>
      simp only [hf] at h
      exact absurd h (by simp)
  | ok kwargs =>
      simp only [hf] at h
      exact h

/-- Witness for C1 (amended): a two-field model whose generated type copies
both fields round-trips a concrete instance. -/
theorem from_to_pydantic_roundtrip_witness :
    from_pydantic_default
        [⟨"M", "MType", ["a", "b"],
          [⟨"a", PyType.basic "int", true, "", false, none, Value.prim 0⟩,
           ⟨"b", PyType.basic "int", false, "", false, none, Value.prim 0⟩]⟩]
        (Value.pyInst "M" [("a", Value.prim 1), ("b", Value.prim 2)]) =
      Value.stInst "MType" [("a", Value.prim 1), ("b", Value.prim 2)] ∧
    to_pydantic_default
        [⟨"M", "MType", ["a", "b"],
          [⟨"a", PyType.basic "int", true, "", false, none, Value.prim 0⟩,
           ⟨"b", PyType.basic "int", false, "", false, none, Value.prim 0⟩]⟩]
        "M"
        [⟨"a", PyType.basic "int", true, "", false, none, Value.prim 0⟩,
         ⟨"b", PyType.basic "int", false, "", false, none, Value.prim 0⟩]
        [("a", Value.prim 1), ("b", Value.prim 2)] =
      Except.ok (Value.pyInst "M" [("a", Value.prim 1), ("b", Value.prim 2)]) := by
  have h := from_to_pydantic_roundtrip
    [⟨"M", "MType", ["a", "b"],
      [⟨"a", PyType.basic "int", true, "", false, none, Value.prim 0⟩,
       ⟨"b", PyType.basic "int", false, "", false, none, Value.prim 0⟩]⟩]
    "M" [("a", Value.prim 1), ("b", Value.prim 2)]
    ⟨"M", "MType", ["a", "b"],
      [⟨"a", PyType.basic "int", true, "", false, none, Value.prim 0⟩,
       ⟨"b", PyType.basic "int", false, "", false, none, Value.prim 0⟩]⟩
    (by rfl) (by rfl) (by rfl)
  exact ⟨h.1, h.2⟩

/-- C1 counterexample: the claim as stated fails when the generated type
copies only a subset of the model's fields.  Model `M` has a required field
`a` and a non-required field `b` with default `0`; the decorated type copies
only `a`.  Converting the instance `{a: 1, b: 2}` with the default
`from_pydantic` yields a schema instance holding only `a`, and the default
`to_pydantic` then rebuilds the model with `b` reset to its default, so the
round trip does not return an instance equal to the original. -/
theorem from_to_pydantic_roundtrip_cex :
    from_pydantic_default
        [⟨"M", "MX", ["a"],
          [⟨"a", PyType.basic "int", true, "", false, none, Value.prim 0⟩,
           ⟨"b", PyType.basic "int", false, "", false, none, Value.prim 0⟩]⟩]
        (Value.pyInst "M" [("a", Value.prim 1), ("b", Value.prim 2)]) =
      Value.stInst "MX" [("a", Value.prim 1)] ∧
    to_pydantic_default
        [⟨"M", "MX", ["a"],
          [⟨"a", PyType.basic "int", true, "", false, none, Value.prim 0⟩,
           ⟨"b", PyType.basic "int", false, "", false, none, Value.prim 0⟩]⟩]
        "M"
        [⟨"a", PyType.basic "int", true, "", false, none, Value.prim 0⟩,
         ⟨"b", PyType.basic "int", false, "", false, none, Value.prim 0⟩]
        [("a", Value.prim 1)] =
      Except.ok (Value.pyInst "M" [("a", Value.prim 1), ("b", Value.prim 0)]) ∧
    Value.pyInst "M" [("a", Value.prim 1), ("b", Value.prim 0)] ≠
      Value.pyInst "M" [("a", Value.prim 1), ("b", Value.prim 2)] := by
  refine ⟨rfl, rfl, ?_⟩
  intro h
  simp [Value.pyInst.injEq] at h

end StrawberryPydantic
